import Mathlib

/-!
Verification of the smart-lights-skill repository: a shallow embedding of
the two Go executables (the weather-lights Weather Advisor and the
hue-control Bridge Client) together with theorems settling the frozen
claims about their behaviour.

Conventions of the embedding:
* Go strings are Lean `String`s.  `strings.ToLower` / `strings.EqualFold`
  are modelled on their ASCII fragment (all names appearing in the tables
  and commands are ASCII).
* Go `int` is modelled as `Int`; `strconv.Atoi` is modelled including its
  clamping of out-of-range numerals to the 64-bit extremes.
* The network is modelled as an oracle (`Bridge`): the listing result and
  the outcome of each PUT are inputs, and each operation returns its
  result together with the trace of requests it issued.
-/

namespace SmartLights

/-- The fixed weather-code → color table of the Weather Advisor
(`WeatherConditions` in the Go source), as an association list; the Go
map has unique keys, so lookup order is immaterial. -/
def WeatherConditions : List (String × String) :=
  [("113", "warm"), ("116", "warm"),
   ("119", "cool"), ("122", "cool"), ("143", "cool"), ("248", "cool"), ("260", "cool"),
   ("176", "blue"), ("263", "blue"), ("266", "blue"), ("293", "blue"), ("296", "blue"),
   ("299", "blue"), ("302", "blue"), ("305", "blue"), ("308", "blue"),
   ("311", "cyan"), ("314", "cyan"),
   ("353", "blue"), ("356", "blue"), ("359", "blue"),
   ("179", "white"), ("182", "cyan"), ("185", "cyan"), ("227", "white"), ("230", "white"),
   ("317", "cyan"), ("320", "cyan"), ("323", "white"), ("326", "white"), ("329", "white"),
   ("332", "white"), ("335", "white"), ("338", "white"), ("350", "cyan"),
   ("362", "cyan"), ("365", "cyan"), ("368", "white"), ("371", "white"),
   ("374", "cyan"), ("377", "cyan"),
   ("200", "purple"), ("386", "purple"), ("389", "purple"), ("392", "purple"),
   ("395", "purple")]

/-- `adjustColorByTemperature` from the Go source: a `switch` whose cases
are tried in order (tempC < 0; 0 ≤ tempC < 10; 30 ≤ tempC < 38;
tempC ≥ 38; default), each case a single substitution on the base color. -/
def adjustColorByTemperature (baseColor : String) (tempC : Int) : String :=
  if tempC < 0 then
    if baseColor = "warm" ∨ baseColor = "orange" then "cool"
    else if baseColor = "yellow" then "cyan"
    else baseColor
  else if 0 ≤ tempC ∧ tempC < 10 then
    if baseColor = "warm" then "white" else baseColor
  else if 30 ≤ tempC ∧ tempC < 38 then
    if baseColor = "cool" ∨ baseColor = "white" then "warm"
    else if baseColor = "warm" then "orange"
    else baseColor
  else if 38 ≤ tempC then
    if baseColor = "cool" ∨ baseColor = "white" ∨ baseColor = "warm" then "orange"
    else if baseColor = "yellow" then "red"
    else baseColor
  else baseColor

/-- Base-color selection of the Weather Advisor `main`: look the code up
in `WeatherConditions`, defaulting to "warm" when the code is unknown. -/
def weatherBaseColor (code : String) : String :=
  match List.lookup code WeatherConditions with
  | some c => c
  | none => "warm"

/-- Digit-string evaluation used by the `strconv.Atoi` model: `none` when
the list is empty or contains a non-digit character. -/
def digitsVal? (cs : List Char) : Option Nat :=
  if cs.isEmpty then none
  else cs.foldl
    (fun acc c =>
      match acc with
      | none => none
      | some n => if c.isDigit then some (n * 10 + (c.toNat - 48)) else none)
    (some 0)

/-- Integer syntax accepted by `strconv.Atoi` (base 10): an optional
leading sign followed by at least one digit; the mathematical value when
the string matches, `none` otherwise. -/
def parseIntSyntax? (s : String) : Option Int :=
  match s.data with
  | [] => none
  | c :: rest =>
    if c = '+' then (digitsVal? rest).map (fun n => (n : Int))
    else if c = '-' then (digitsVal? rest).map (fun n => -(n : Int))
    else (digitsVal? (c :: rest)).map (fun n => (n : Int))

def maxInt64 : Int := 9223372036854775807

def minInt64 : Int := -9223372036854775808

/-- The value of `strconv.Atoi(s)` with the error discarded, as the
Weather Advisor does (`temp, _ := strconv.Atoi(current.TempC)`): 0 on a
syntax error, the clamped 64-bit extreme on a range error, the parsed
value otherwise. -/
def goAtoi (s : String) : Int :=
  match parseIntSyntax? s with
  | none => 0
  | some v => if v < minInt64 then minInt64 else if maxInt64 < v then maxInt64 else v

/-- The color the Weather Advisor resolves from a weather code and the
raw `temp_C` string, following `main` in the Go source: table lookup with
"warm" default, then one temperature adjustment. -/
def weatherAdvisorColor (code tempStr : String) : String :=
  adjustColorByTemperature (weatherBaseColor code) (goAtoi tempStr)

/-- C1: for every base color and integer Celsius temperature, the
temperature adjustment performs exactly the one-step substitution the
claim lists for the temperature's band (< 0; 0–9; 10–29; 30–37; ≥ 38),
never chained: the right-hand side below substitutes at most once. -/
theorem c1_adjust_color_by_temperature (c : String) (t : Int) :
    adjustColorByTemperature c t =
      if t < 0 then
        (if c = "warm" ∨ c = "orange" then "cool"
         else if c = "yellow" then "cyan" else c)
      else if t ≤ 9 then (if c = "warm" then "white" else c)
      else if t ≤ 29 then c
      else if t ≤ 37 then
        (if c = "cool" ∨ c = "white" then "warm"
         else if c = "warm" then "orange" else c)
      else
        (if c = "cool" ∨ c = "white" ∨ c = "warm" then "orange"
         else if c = "yellow" then "red" else c) := by
  unfold adjustColorByTemperature
  split_ifs <;> first | rfl | omega

/-! ## Bridge Client (hue-control) -/

/-- A Hue group as read from the listing (the `Group` struct of the Go
source; the `Action` field is only used by the display command and is not
modelled). -/
structure Group where
  name : String
  type : String := ""
  lights : List String := []
deriving DecidableEq, Repr

/-- The JSON body of a group-action PUT: the `state` map built by
`setAllLights` / `setRoomState` (`none` means the key is absent). -/
structure StateReq where
  isOn : Bool
  bri : Option Int := none
  hue : Option Int := none
  sat : Option Int := none
deriving DecidableEq, Repr

/-- A network request issued by the Bridge Client: the group listing GET,
or a PUT of a state body to a group's action endpoint. -/
inductive Req where
  | getGroups : Req
  | put (groupId : String) (st : StateReq) : Req
deriving DecidableEq, Repr

instance {ε α : Type} [DecidableEq ε] [DecidableEq α] : DecidableEq (Except ε α)
  | .ok a, .ok b =>
    if h : a = b then .isTrue (by rw [h]) else .isFalse (by simp [h])
  | .ok _, .error _ => .isFalse (by simp)
  | .error _, .ok _ => .isFalse (by simp)
  | .error a, .error b =>
    if h : a = b then .isTrue (by rw [h]) else .isFalse (by simp [h])

/-- The bridge as an oracle: the outcome of the group-listing GET and of
each PUT.  Groups are listed as (id, group) pairs; the Go map's
iteration order is unspecified, and every theorem below is independent of
the order this list fixes. -/
structure Bridge where
  groups : Except String (List (String × Group))
  put : String → StateReq → Except String Unit

/-- Percentage-to-device brightness conversion in `runSet`:
`int(float64(p)/100.0*254)` followed by the minimum-1 clamp for positive
percentages.  For integer p with 0 ≤ p ≤ 100 the float64 computation is
exact enough that the truncation equals ⌊p·254/100⌋ (the exact value
p·2.54 is an integer only for p ∈ {0, 50, 100}, where the floats are
exact, and is otherwise at least 0.02 from an integer, far beyond the
~1e-13 rounding error), so integer division models it faithfully. -/
def scaleBrightness (p : Int) : Int :=
  let hb := p * 254 / 100
  if hb < 1 ∧ 0 < p then 1 else hb

/-- The state body `setAllLights` builds: `bri` only when turning on with
positive brightness, `hue`/`sat` only when nonnegative (−1 is the
"not provided" sentinel). -/
def allLightsState (isOn : Bool) (brightness hue sat : Int) : StateReq :=
  { isOn := isOn
    bri := if isOn ∧ 0 < brightness then some brightness else none
    hue := if 0 ≤ hue then some hue else none
    sat := if 0 ≤ sat then some sat else none }

/-- `setAllLights` from the Go source: list the groups (failing if the
listing fails), PUT the state to the reserved pseudo-group "0", and on a
connection error fall back to one PUT per listed group, ignoring each
per-group outcome and returning success.  The second component is the
trace of requests issued. -/
def setAllLights (b : Bridge) (isOn : Bool) (brightness hue sat : Int) :
    Except String Unit × List Req :=
  match b.groups with
  | .error e => (.error e, [.getGroups])
  | .ok gs =>
    let st := allLightsState isOn brightness hue sat
    match b.put "0" st with
    | .ok _ => (.ok (), [.getGroups, .put "0" st])
    | .error _ =>
      (.ok (), .getGroups :: .put "0" st :: gs.map (fun p => Req.put p.1 st))

/-- ASCII lower-casing of one character. -/
def asciiLowerChar (c : Char) : Char :=
  if 'A' ≤ c ∧ c ≤ 'Z' then Char.ofNat (c.toNat + 32) else c

/-- `strings.ToLower` on its ASCII fragment. -/
def goToLower (s : String) : String :=
  ⟨s.data.map asciiLowerChar⟩

/-- `strings.EqualFold` on its ASCII fragment: equality after
lower-casing both operands. -/
def goEqualFold (s t : String) : Bool :=
  goToLower s == goToLower t

/-- The error text `setRoomState` returns when no group matches
(`room '%s' not found. Use 'hue-control list' to see available rooms`). -/
def roomNotFoundMsg (roomName : String) : String :=
  "room \x27" ++ roomName ++ "\x27 not found. Use \x27hue-control list\x27 to see available rooms"

/-- `setRoomState` from the Go source: list the groups, resolve the room
by the first case-insensitive name match (empty id when none matches),
fail with the not-found message before any PUT when unresolved, otherwise
PUT {on: true, bri, hue?, sat?} to the matched group. -/
def setRoomState (b : Bridge) (roomName : String) (brightness hue sat : Int) :
    Except String Unit × List Req :=
  match b.groups with
  | .error e => (.error e, [.getGroups])
  | .ok gs =>
    let groupID :=
      match gs.find? (fun p => goEqualFold p.2.name roomName) with
      | some p => p.1
      | none => ""
    if groupID = "" then (.error (roomNotFoundMsg roomName), [.getGroups])
    else
      let st : StateReq :=
        { isOn := true
          bri := some brightness
          hue := if 0 ≤ hue then some hue else none
          sat := if 0 ≤ sat then some sat else none }
      match b.put groupID st with
      | .ok _ => (.ok (), [.getGroups, .put groupID st])
      | .error e =>
        (.error ("failed to connect to bridge: " ++ e), [.getGroups, .put groupID st])

/-- The fixed `ColorPresets` table: name → (hue, saturation); a Go map
with unique keys, so lookup order is immaterial. -/
def ColorPresets : List (String × Int × Int) :=
  [("red", 0, 254), ("orange", 5000, 254), ("yellow", 10000, 254),
   ("green", 25500, 254), ("cyan", 35000, 254), ("blue", 46920, 254),
   ("purple", 50000, 254), ("pink", 56100, 254), ("warm", 8000, 200),
   ("cool", 34000, 50), ("white", 0, 0)]

def brightnessErrMsg : String := "Error: Brightness must be between 0 and 100"

def hueErrMsg : String := "Error: Hue must be between 0 and 65535"

def satErrMsg : String := "Error: Saturation must be between 0 and 254"

/-- The unknown-color error text of `runSet`, which lists every valid
preset name. -/
def unknownColorMsg (c : String) : String :=
  "Error: Unknown color \x27" ++ c ++
    "\x27. Available: red, orange, yellow, green, cyan, blue, purple, pink, warm, cool, white"

/-- The parsed flags of the `set` subcommand.  `none` for `hue`/`sat`
means the flag was absent (Go's default is the sentinel −1); an empty
`color` means the flag was absent. -/
structure SetFlags where
  room : String := "all"
  brightness : Int := 100
  hue : Option Int := none
  sat : Option Int := none
  color : String := ""

/-- The validation and resolution phase of `runSet`, in source order:
brightness range check; color-preset lookup (on the lower-cased name);
hue upper-bound check (only when the effective hue value is ≥ 0, explicit
values overriding the preset); likewise saturation; then the brightness
scaling.  On success: (finalHue, finalSat, device brightness).  This
phase precedes every network interaction. -/
def runSetResolve (f : SetFlags) : Except String (Int × Int × Int) :=
  if f.brightness < 0 ∨ 100 < f.brightness then .error brightnessErrMsg
  else
    let presetResult : Except String (Int × Int) :=
      if f.color = "" then .ok (-1, -1)
      else
        match List.lookup (goToLower f.color) ColorPresets with
        | some p => .ok p
        | none => .error (unknownColorMsg f.color)
    match presetResult with
    | .error e => .error e
    | .ok (h0, s0) =>
      let hv := f.hue.getD (-1)
      let sv := f.sat.getD (-1)
      if 0 ≤ hv ∧ 65535 < hv then .error hueErrMsg
      else
        let fh := if 0 ≤ hv then hv else h0
        if 0 ≤ sv ∧ 254 < sv then .error satErrMsg
        else
          let fs := if 0 ≤ sv then sv else s0
          .ok (fh, fs, scaleBrightness f.brightness)

/-- The whole `set` command against a bridge oracle: resolve (issuing no
request on a validation error), then dispatch on the lower-cased room
name: "all" goes through `setAllLights` with on = true, anything else
through `setRoomState`. -/
def runSetCmd (f : SetFlags) (b : Bridge) : Except String Unit × List Req :=
  match runSetResolve f with
  | .error e => (.error e, [])
  | .ok (fh, fs, hb) =>
    if goToLower f.room = "all" then setAllLights b true hb fh fs
    else setRoomState b f.room hb fh fs

/-- The `on` command: `setAllLights(config, true, 254, -1, -1)`. -/
def runOnCmd (b : Bridge) : Except String Unit × List Req :=
  setAllLights b true 254 (-1) (-1)

/-- The `off` command: `setAllLights(config, false, 0, -1, -1)`. -/
def runOffCmd (b : Bridge) : Except String Unit × List Req :=
  setAllLights b false 0 (-1) (-1)

/-! ## Pairing (createUser) -/

/-- A decoded JSON value, as Go's `encoding/json` produces for
`interface\x7b\x7d` targets: objects are string-keyed maps (modelled as
association lists with unique keys), numbers are modelled as integers
(the bridge protocol uses none but integral numbers). -/
inductive Json where
  | null : Json
  | bool (b : Bool) : Json
  | num (n : Int) : Json
  | str (s : String) : Json
  | arr (elems : List Json) : Json
  | obj (fields : List (String × Json)) : Json

/-- The outcome of the pairing exchange: success with the credential, a
bridge-reported error, a protocol error, or a runtime panic (Go type
assertion failure). -/
inductive CUResult where
  | ok (username : String) : CUResult
  | bridgeErr (desc : String) : CUResult
  | protocolErr (msg : String) : CUResult
  | panics : CUResult
deriving DecidableEq, Repr

/-- Rendering of the optional `description` value by
`fmt.Errorf("%v", errMap["description"])`: a missing key is a nil
interface ("<nil>"); for the composite cases the exact `%v` text is
immaterial to every theorem below. -/
def goShow : Option Json → String
  | none => "<nil>"
  | some .null => "<nil>"
  | some (.bool b) => if b then "true" else "false"
  | some (.num n) => toString n
  | some (.str s) => s
  | some (.arr _) => "[...]"
  | some (.obj _) => "map[...]"

/-- Go's unmarshalling of the response body into
`[]map[string]interface\x7b\x7d`: succeeds exactly when the value is an
array all of whose elements are objects. -/
def asObjArray : Json → Option (List (List (String × Json)))
  | .arr elems =>
    elems.mapM (fun e => match e with | .obj fields => some fields | _ => none)
  | _ => none

/-- Handling of the first array element in `createUser`: the `error` key
is inspected first (a non-object value makes the
`errInfo.(map[string]interface\x7b\x7d)` type assertion panic), then the
`success` key (same caveat, and `username.(string)` panics on a
non-string username); anything else is the generic unexpected-response
error. -/
def handleFirst (first : List (String × Json)) : CUResult :=
  match List.lookup "error" first with
  | some (.obj errMap) => .bridgeErr (goShow (List.lookup "description" errMap))
  | some _ => .panics
  | none =>
    match List.lookup "success" first with
    | some (.obj successMap) =>
      match List.lookup "username" successMap with
      | some (.str u) => .ok u
      | some _ => .panics
      | none => .protocolErr "unexpected response from bridge"
    | some _ => .panics
    | none => .protocolErr "unexpected response from bridge"

/-- `createUser`'s handling of a bridge response body (the network send
itself is abstracted away): unmarshal as an array of objects, reject an
empty array, then dispatch on the first element. -/
def createUser (resp : Json) : CUResult :=
  match asObjArray resp with
  | none => .protocolErr "invalid response from bridge"
  | some [] => .protocolErr "empty response from bridge"
  | some (first :: _) => handleFirst first

/-! ## Concrete bridge oracles used by witnesses and counterexamples -/

/-- A two-group listing used by concrete instantiations. -/
def demoGroups : List (String × Group) :=
  [("1", { name := "Living Room" }), ("2", { name := "Bedroom" })]

/-- A bridge whose listing and every PUT succeed. -/
def okBridge : Bridge :=
  { groups := .ok demoGroups, put := fun _ _ => .ok () }

/-- A bridge whose listing succeeds but every PUT fails. -/
def failPutBridge : Bridge :=
  { groups := .ok demoGroups, put := fun _ _ => .error "connection refused" }

/-- A bridge with a single group named "Kitchen". -/
def kitchenBridge : Bridge :=
  { groups := .ok [("7", { name := "Kitchen" })], put := fun _ _ => .ok () }

/-! ## Claim theorems -/

/-- C2 counterexample: the claim says the device brightness equals
round(p/100×254); at p = 1 the code truncates 2.54 to 2 while rounding
gives (1·254+50)/100 = 3. -/
theorem c2_round_counterexample : scaleBrightness 1 ≠ (1 * 254 + 50) / 100 := by
  decide

/-- C2 amended: for every accepted percentage p ∈ [0,100] the device
brightness is the truncation ⌊p·254/100⌋ (not the rounding), and every
positive percentage still yields at least 1. -/
theorem c2_scale_brightness_floor (p : Int) (h0 : 0 ≤ p) (h1 : p ≤ 100) :
    scaleBrightness p = p * 254 / 100 ∧ (0 < p → 1 ≤ scaleBrightness p) := by
  interval_cases p <;> decide

/-- C2 witness: the amended statement evaluated at p = 1. -/
theorem c2_scale_brightness_floor_witness :
    (0 : Int) ≤ 1 ∧ (1 : Int) ≤ 100 ∧
      (scaleBrightness 1 = 1 * 254 / 100 ∧ ((0 : Int) < 1 → 1 ≤ scaleBrightness 1)) :=
  ⟨by decide, by decide, c2_scale_brightness_floor 1 (by decide) (by decide)⟩

/-- C3 counterexample: against a bridge whose listing and writes succeed,
the `off` command and `set --brightness 0` issue different requests: off
sends \x7bon: false\x7d while set sends \x7bon: true\x7d (with no `bri`
key in either, since the device brightness 0 is not positive). -/
theorem c3_off_counterexample :
    runOffCmd okBridge ≠ runSetCmd { room := "all", brightness := 0 } okBridge := by
  decide

/-- C3 amended: `on` is equivalent to `set` with brightness 100, no color
change, targeting all lights (identical result and request trace for
every bridge); `off` is not equivalent to `set` with brightness 0: off
issues an on = false request with no brightness field, whereas such a set
issues an on = true request with no brightness field. -/
theorem c3_on_off_amended (b : Bridge) :
    runOnCmd b = runSetCmd { room := "all", brightness := 100 } b
    ∧ allLightsState false 0 (-1) (-1) = { isOn := false }
    ∧ allLightsState true (scaleBrightness 0) (-1) (-1) = { isOn := true } :=
  ⟨rfl, by decide, by decide⟩

/-- C8: an unknown weather code resolves to the base color "warm", and
the temperature adjustment is then applied to that default exactly as to
any other base color. -/
theorem c8_unknown_code_defaults_warm (code : String)
    (h : List.lookup code WeatherConditions = none) :
    weatherBaseColor code = "warm"
    ∧ ∀ t : Int,
        adjustColorByTemperature (weatherBaseColor code) t =
          adjustColorByTemperature "warm" t := by
  have hb : weatherBaseColor code = "warm" := by simp [weatherBaseColor, h]
  exact ⟨hb, fun t => by rw [hb]⟩

/-- C8 witness: the unknown code "999" from the claim's scenario, with
the adjustment evaluated at 35°C. -/
theorem c8_unknown_code_defaults_warm_witness :
    List.lookup "999" WeatherConditions = none
    ∧ weatherBaseColor "999" = "warm"
    ∧ adjustColorByTemperature (weatherBaseColor "999") 35 =
        adjustColorByTemperature "warm" 35 :=
  ⟨by decide, (c8_unknown_code_defaults_warm "999" (by decide)).1,
   (c8_unknown_code_defaults_warm "999" (by decide)).2 35⟩

/-- C10: when `temp_C` does not match integer syntax, the discarded
`strconv.Atoi` error leaves the temperature at 0, so the advisor behaves
exactly as at 0°C; in particular a "warm" base (code "113") lands in the
0–9°C band and becomes "white". -/
theorem c10_unparseable_temp_is_zero (s : String) (h : parseIntSyntax? s = none) :
    goAtoi s = 0
    ∧ (∀ code, weatherAdvisorColor code s =
        adjustColorByTemperature (weatherBaseColor code) 0)
    ∧ weatherAdvisorColor "113" s = "white" := by
  have h0 : goAtoi s = 0 := by simp [goAtoi, h]
  refine ⟨h0, fun code => by simp [weatherAdvisorColor, h0], ?_⟩
  simp only [weatherAdvisorColor, h0]
  decide

/-- C10 witness: the unparseable temperature string "N/A". -/
theorem c10_unparseable_temp_is_zero_witness :
    parseIntSyntax? "N/A" = none
    ∧ goAtoi "N/A" = 0
    ∧ weatherAdvisorColor "999" "N/A" =
        adjustColorByTemperature (weatherBaseColor "999") 0
    ∧ weatherAdvisorColor "113" "N/A" = "white" :=
  ⟨by decide, (c10_unparseable_temp_is_zero "N/A" (by decide)).1,
   (c10_unparseable_temp_is_zero "N/A" (by decide)).2.1 "999",
   (c10_unparseable_temp_is_zero "N/A" (by decide)).2.2⟩

/-- C5: for the broadcast path, a failed listing is the only failure —
when the listing errors, that error is surfaced after the single GET;
when it succeeds the operation succeeds with the "0" pseudo-group written
first, and a connection error there triggers exactly one best-effort
write per listed group, every per-group outcome swallowed (the
conclusion is independent of `b.put`'s results). -/
theorem c5_set_all_broadcast (b : Bridge) (isOn : Bool) (brightness hue sat : Int) :
    (∀ e, b.groups = .error e →
        setAllLights b isOn brightness hue sat = (.error e, [.getGroups]))
    ∧ (∀ gs, b.groups = .ok gs →
        (setAllLights b isOn brightness hue sat).1 = .ok ()
        ∧ (∀ u, b.put "0" (allLightsState isOn brightness hue sat) = .ok u →
            (setAllLights b isOn brightness hue sat).2 =
              [.getGroups, .put "0" (allLightsState isOn brightness hue sat)])
        ∧ (∀ e, b.put "0" (allLightsState isOn brightness hue sat) = .error e →
            (setAllLights b isOn brightness hue sat).2 =
              .getGroups :: .put "0" (allLightsState isOn brightness hue sat) ::
                gs.map (fun p => Req.put p.1 (allLightsState isOn brightness hue sat)))) := by
  constructor
  · intro e he
    simp [setAllLights, he]
  · intro gs hgs
    refine ⟨?_, ?_, ?_⟩
    · cases hp : b.put "0" (allLightsState isOn brightness hue sat) <;>
        simp [setAllLights, hgs, hp]
    · intro u hu
      simp [setAllLights, hgs, hu]
    · intro e he
      simp [setAllLights, hgs, he]

/-- C5 witness: a bridge whose listing succeeds but whose every PUT
fails: the broadcast still succeeds, writing "0" first and then each
listed group. -/
theorem c5_set_all_broadcast_witness :
    failPutBridge.groups = .ok demoGroups
    ∧ (setAllLights failPutBridge true 254 (-1) (-1)).1 = .ok ()
    ∧ (setAllLights failPutBridge true 254 (-1) (-1)).2 =
        .getGroups :: .put "0" (allLightsState true 254 (-1) (-1)) ::
          demoGroups.map (fun p => Req.put p.1 (allLightsState true 254 (-1) (-1))) :=
  ⟨rfl,
   ((c5_set_all_broadcast failPutBridge true 254 (-1) (-1)).2 demoGroups rfl).1,
   ((c5_set_all_broadcast failPutBridge true 254 (-1) (-1)).2 demoGroups rfl).2.2
     "connection refused" rfl⟩

/-- C6: with a successful listing, a room is resolved only by
case-insensitive name match — any PUT the operation issues targets a
group whose name folds to the requested room — and when no listed group
matches, it fails with the not-found message (which names the
`hue-control list` remedy) having issued no PUT. -/
theorem c6_room_not_found (b : Bridge) (roomName : String) (brightness hue sat : Int) :
    (∀ gs, b.groups = .ok gs →
        (∀ p ∈ gs, goEqualFold p.2.name roomName = false) →
        setRoomState b roomName brightness hue sat =
          (.error (roomNotFoundMsg roomName), [.getGroups]))
    ∧ (∀ id st, Req.put id st ∈ (setRoomState b roomName brightness hue sat).2 →
        ∃ gs g, b.groups = .ok gs ∧ (id, g) ∈ gs ∧ goEqualFold g.name roomName = true) := by
  constructor
  · intro gs hgs hall
    have hfind : gs.find? (fun p => goEqualFold p.2.name roomName) = none := by
      rw [List.find?_eq_none]
      intro p hp
      simp [hall p hp]
    simp [setRoomState, hgs, hfind]
  · intro id st hmem
    unfold setRoomState at hmem
    cases hgs : b.groups with
    | error e => rw [hgs] at hmem; simp at hmem
    | ok gs =>
      rw [hgs] at hmem
      cases hfind : gs.find? (fun p => goEqualFold p.2.name roomName) with
      | none => simp [hfind] at hmem
      | some p =>
        have hpred := List.find?_some hfind
        have hpmem := List.mem_of_find?_eq_some hfind
        simp only [hfind] at hmem
        by_cases hempty : p.1 = ""
        · simp [hempty] at hmem
        · refine ⟨gs, p.2, rfl, ?_, hpred⟩
          have hid : id = p.1 := by
            rw [if_neg hempty] at hmem
            cases hput : b.put p.1
                { isOn := true, bri := some brightness,
                  hue := if 0 ≤ hue then some hue else none,
                  sat := if 0 ≤ sat then some sat else none } <;>
              rw [hput] at hmem <;> simp at hmem <;> exact hmem.1
          rw [hid]
          simpa using hpmem

/-- C6 witness: no group of the demo bridge folds to "Kitchen", so the
set fails with the not-found message after only the listing GET. -/
theorem c6_room_not_found_witness :
    okBridge.groups = .ok demoGroups
    ∧ (∀ p ∈ demoGroups, goEqualFold p.2.name "Kitchen" = false)
    ∧ setRoomState okBridge "Kitchen" 127 (-1) (-1) =
        (.error (roomNotFoundMsg "Kitchen"), [.getGroups]) :=
  ⟨rfl, by decide,
   (c6_room_not_found okBridge "Kitchen" 127 (-1) (-1)).1 demoGroups rfl (by decide)⟩

/-- The successful outcome of `runSetResolve` always carries
`scaleBrightness f.brightness` as its device-brightness component. -/
theorem runSetResolve_ok_brightness (f : SetFlags) (fh fs hb : Int)
    (h : runSetResolve f = .ok (fh, fs, hb)) : hb = scaleBrightness f.brightness := by
  unfold runSetResolve at h
  repeat' split at h
  all_goals try simp_all
  all_goals repeat' split at h
  all_goals simp_all

/-- C9: every PUT issued by a room-targeted set (any target other than
"all", case-insensitively) carries on = true and an explicit `bri` field
equal to the scaled percentage — including percentage 0, which therefore
turns the room on at device brightness 0 rather than off. -/
theorem c9_room_set_always_on (f : SetFlags) (b : Bridge)
    (hroom : goToLower f.room ≠ "all") :
    ∀ id st, Req.put id st ∈ (runSetCmd f b).2 →
      st.isOn = true ∧ st.bri = some (scaleBrightness f.brightness) := by
  intro id st hmem
  unfold runSetCmd at hmem
  cases hr : runSetResolve f with
  | error e => rw [hr] at hmem; simp at hmem
  | ok r =>
    obtain ⟨fh, fs, hb⟩ := r
    have hbw : hb = scaleBrightness f.brightness :=
      runSetResolve_ok_brightness f fh fs hb hr
    rw [hr] at hmem
    simp only [if_neg hroom] at hmem
    unfold setRoomState at hmem
    cases hgs : b.groups with
    | error e => rw [hgs] at hmem; simp at hmem
    | ok gs =>
      rw [hgs] at hmem
      cases hfind : gs.find? (fun p => goEqualFold p.2.name f.room) with
      | none => simp [hfind] at hmem
      | some p =>
        simp only [hfind] at hmem
        by_cases hempty : p.1 = ""
        · simp [hempty] at hmem
        · rw [if_neg hempty] at hmem
          cases hput : b.put p.1
              { isOn := true, bri := some hb,
                hue := if 0 ≤ fh then some fh else none,
                sat := if 0 ≤ fs then some fs else none } <;>
            rw [hput] at hmem <;> simp at hmem <;>
            simp [hmem.2, hbw]

/-- C9 witness: `set --room Kitchen --brightness 0` against a bridge with
a "Kitchen" group issues a PUT whose body has on = true and bri = 0. -/
theorem c9_room_set_always_on_witness :
    goToLower "Kitchen" ≠ "all"
    ∧ Req.put "7" { isOn := true, bri := some 0 } ∈
        (runSetCmd { room := "Kitchen", brightness := 0 } kitchenBridge).2
    ∧ ({ isOn := true, bri := some 0 } : StateReq).isOn = true
    ∧ ({ isOn := true, bri := some 0 } : StateReq).bri =
        some (scaleBrightness ({ room := "Kitchen", brightness := 0 } : SetFlags).brightness) :=
  ⟨by decide, by decide,
   (c9_room_set_always_on { room := "Kitchen", brightness := 0 } kitchenBridge
      (by decide) "7" { isOn := true, bri := some 0 } (by decide)).1,
   (c9_room_set_always_on { room := "Kitchen", brightness := 0 } kitchenBridge
      (by decide) "7" { isOn := true, bri := some 0 } (by decide)).2⟩

/-- C4 counterexample: the response `[\x7b"error": "boom"\x7d]` is an
array whose first element contains an "error" key with a non-object
value; the claim requires a ProtocolError result for such a shape, but
the `errInfo.(map[string]interface\x7b\x7d)` type assertion makes the
process panic instead of returning an error result. -/
theorem c4_panic_counterexample :
    createUser (.arr [.obj [("error", .str "boom")]]) = .panics := by
  decide

/-- C4 amended: the claimed handling holds whenever the inspected values
have the expected types — error mapped to an object yields BridgeError
with the provider's description, success mapped to an object with a
string username yields the credential, neither key (or an undecodable or
empty array) yields ProtocolError — but an "error" key whose value is
not an object makes the process panic rather than fail with
ProtocolError. -/
theorem c4_create_user_amended (resp : Json) :
    (asObjArray resp = none →
        createUser resp = .protocolErr "invalid response from bridge")
    ∧ (asObjArray resp = some [] →
        createUser resp = .protocolErr "empty response from bridge")
    ∧ (∀ first rest, asObjArray resp = some (first :: rest) →
        (∀ em, List.lookup "error" first = some (.obj em) →
            createUser resp = .bridgeErr (goShow (List.lookup "description" em)))
        ∧ (∀ v, List.lookup "error" first = some v → (∀ em, v ≠ Json.obj em) →
            createUser resp = .panics)
        ∧ (List.lookup "error" first = none →
            ∀ sm u, List.lookup "success" first = some (.obj sm) →
              List.lookup "username" sm = some (.str u) → createUser resp = .ok u)
        ∧ (List.lookup "error" first = none → List.lookup "success" first = none →
            createUser resp = .protocolErr "unexpected response from bridge")) := by
  refine ⟨fun hd => by simp [createUser, hd], fun hd => by simp [createUser, hd], ?_⟩
  intro first rest hd
  refine ⟨?_, ?_, ?_, ?_⟩
  · intro em he
    simp [createUser, hd, handleFirst, he]
  · intro v he hv
    cases v <;> simp [createUser, hd, handleFirst, he]
    exact absurd rfl (hv _)
  · intro he sm u hs hu
    simp [createUser, hd, handleFirst, he, hs, hu]
  · intro he hs
    simp [createUser, hd, handleFirst, he, hs]

/-- C4 witness: the amended statement at a bridge-error response and at a
success response. -/
theorem c4_create_user_amended_witness :
    createUser (.arr [.obj [("error", .obj [("description", .str "link button not pressed")])]]) =
      .bridgeErr (goShow (List.lookup "description"
        [("description", Json.str "link button not pressed")]))
    ∧ createUser (.arr [.obj [("success", .obj [("username", .str "k3y")])]]) = .ok "k3y"
    ∧ createUser (.str "nope") = .protocolErr "invalid response from bridge" :=
  ⟨((c4_create_user_amended
        (.arr [.obj [("error", .obj [("description", .str "link button not pressed")])]])).2.2
      [("error", .obj [("description", .str "link button not pressed")])] [] rfl).1
      [("description", .str "link button not pressed")] rfl,
   ((c4_create_user_amended
        (.arr [.obj [("success", .obj [("username", .str "k3y")])]])).2.2
      [("success", .obj [("username", .str "k3y")])] [] rfl).2.2.1 rfl
      [("username", .str "k3y")] "k3y" rfl rfl,
   (c4_create_user_amended (.str "nope")).1 rfl⟩

/-- C7 counterexample: an explicitly given hue of −5 lies outside
[0, 65535] but is not rejected — the resolution succeeds (negative
values coincide with the "flag absent" sentinel −1 and are silently
ignored), where the claim requires a ValidationError. -/
theorem c7_negative_hue_counterexample :
    runSetResolve { room := "all", brightness := 100, hue := some (-5),
                    sat := none, color := "" } = .ok (-1, -1, 254) := by
  decide

/-- C7 amended: all flag validation is enforced before any network call
(a resolution error yields an empty request trace); brightness outside
[0,100] is rejected; an explicit hue above 65535 and an explicit
saturation above 254 are rejected; an unknown color-preset name is
rejected with the full list of valid names in the message; but a
negative explicit hue is treated exactly as an absent flag rather than
rejected. -/
theorem c7_validation_amended (f : SetFlags) :
    ((f.brightness < 0 ∨ 100 < f.brightness) → runSetResolve f = .error brightnessErrMsg)
    ∧ (¬(f.brightness < 0 ∨ 100 < f.brightness) → f.color ≠ "" →
        List.lookup (goToLower f.color) ColorPresets = none →
        runSetResolve f = .error (unknownColorMsg f.color))
    ∧ (∀ h, f.hue = some h → 65535 < h → ¬(f.brightness < 0 ∨ 100 < f.brightness) →
        (f.color = "" ∨ (List.lookup (goToLower f.color) ColorPresets).isSome) →
        runSetResolve f = .error hueErrMsg)
    ∧ (∀ s, f.sat = some s → 254 < s → ¬(f.brightness < 0 ∨ 100 < f.brightness) →
        (f.color = "" ∨ (List.lookup (goToLower f.color) ColorPresets).isSome) →
        (∀ h, f.hue = some h → h ≤ 65535) →
        runSetResolve f = .error satErrMsg)
    ∧ (∀ h, f.hue = some h → h < 0 →
        runSetResolve f = runSetResolve { f with hue := none })
    ∧ (∀ s, f.sat = some s → s < 0 →
        runSetResolve f = runSetResolve { f with sat := none })
    ∧ (∀ e, runSetResolve f = .error e → ∀ b, runSetCmd f b = (.error e, [])) := by
  refine ⟨?_, ?_, ?_, ?_, ?_, ?_, ?_⟩
  · intro hb
    simp [runSetResolve, hb]
  · intro hb hc hlook
    simp [runSetResolve, hb, hc, hlook]
  · intro h hh hgt hb hcol
    have hcond : 0 ≤ f.hue.getD (-1) ∧ 65535 < f.hue.getD (-1) := by
      rw [hh]
      simp only [Option.getD_some]
      exact ⟨by omega, hgt⟩
    rcases hcol with hc | hc
    · simp [runSetResolve, hb, hc, hcond]
    · obtain ⟨p, hp⟩ := Option.isSome_iff_exists.mp hc
      rcases eq_or_ne f.color "" with hcc | hcc <;>
        simp [runSetResolve, hb, hp, hcond, hcc]
  · intro s hs hgt hb hcol hhue
    have hcond : ¬(0 ≤ f.hue.getD (-1) ∧ 65535 < f.hue.getD (-1)) := by
      cases hh : f.hue with
      | none => simp
      | some h =>
        have hle := hhue h hh
        simp only [Option.getD_some]
        omega
    have hscond : 0 ≤ f.sat.getD (-1) ∧ 254 < f.sat.getD (-1) := by
      rw [hs]
      simp only [Option.getD_some]
      exact ⟨by omega, hgt⟩
    rcases hcol with hc | hc
    · simp [runSetResolve, hb, hc, hcond, hscond]
    · obtain ⟨p, hp⟩ := Option.isSome_iff_exists.mp hc
      rcases eq_or_ne f.color "" with hcc | hcc <;>
        simp [runSetResolve, hb, hp, hcond, hscond, hcc]
  · intro h hh hneg
    have hna : ¬(0 ≤ h) := by omega
    unfold runSetResolve
    simp [hh, hna]
  · intro s hs hneg
    have hna : ¬(0 ≤ s) := by omega
    unfold runSetResolve
    simp [hs, hna]
  · intro e he b
    simp [runSetCmd, he]

/-- C7 witness: the amended statement exercised at concrete flag sets —
out-of-range brightness, unknown color, hue 70000, saturation 300, the
ignored negative hue, the ignored negative saturation, and the empty
request trace on a validation error. -/
theorem c7_validation_amended_witness :
    runSetResolve { room := "all", brightness := 150, hue := none, sat := none, color := "" } =
      .error brightnessErrMsg
    ∧ runSetResolve
        { room := "all", brightness := 100, hue := none, sat := none, color := "chartreuse" } =
        .error (unknownColorMsg "chartreuse")
    ∧ runSetResolve
        { room := "all", brightness := 100, hue := some 70000, sat := none, color := "" } =
        .error hueErrMsg
    ∧ runSetResolve
        { room := "all", brightness := 100, hue := none, sat := some 300, color := "" } =
        .error satErrMsg
    ∧ runSetResolve
        { room := "all", brightness := 100, hue := some (-5), sat := none, color := "" } =
        runSetResolve { room := "all", brightness := 100, hue := none, sat := none, color := "" }
    ∧ runSetResolve
        { room := "all", brightness := 100, hue := none, sat := some (-5), color := "" } =
        runSetResolve { room := "all", brightness := 100, hue := none, sat := none, color := "" }
    ∧ runSetCmd { room := "all", brightness := 150, hue := none, sat := none, color := "" }
        okBridge = (.error brightnessErrMsg, []) :=
  ⟨(c7_validation_amended _).1 (by decide),
   (c7_validation_amended _).2.1 (by decide) (by decide) (by decide),
   (c7_validation_amended _).2.2.1 70000 rfl (by decide) (by decide) (Or.inl rfl),
   (c7_validation_amended _).2.2.2.1 300 rfl (by decide) (by decide) (Or.inl rfl)
     (fun h hh => nomatch hh),
   (c7_validation_amended _).2.2.2.2.1 (-5) rfl (by decide),
   (c7_validation_amended _).2.2.2.2.2.1 (-5) rfl (by decide),
   (c7_validation_amended _).2.2.2.2.2.2 brightnessErrMsg
     ((c7_validation_amended _).1 (by decide)) okBridge⟩

end SmartLights
